import Mathlib

/-!
Shallow embedding of the velodown download manager core.

The source is `src/src-tauri/src/main.rs` (the most complete variant: task
state machine, resumable transfer, retry/backoff policy, orchestration) plus
the older `src/velodown/src-tauri/src/main.rs` variant for the definitions
marked `_v0`.  Machine integers (`u64`, `u8`) are modeled as `Nat`; the only
place where wrap-around is reachable in principle is the `u8` attempt counter,
whose increment is therefore taken `% 256`.  The `f64` progress field is
modeled as an exact rational.  Wall-clock durations are modeled in
milliseconds.  Network, disk and timing non-determinism is made explicit:
an HTTP response is a record of the fields the code reads, the byte stream is
a list of chunk sizes each tagged with whether the 100 ms sampling window had
elapsed when it arrived, and the on-disk length at verification time is a
parameter.
-/

namespace Velodown

/-- `DownloadStatus`, main.rs line 27. -/
inductive DownloadStatus
  | queued
  | downloading
  | paused
  | completed
  | failed
  | verifying
  | retrying
  deriving DecidableEq, Repr

/-- `DownloadTask`, main.rs lines 31-38.  The fields `url`, `file_name`,
`save_path`, `file_type`, `connections`, `created_at` and `completed_at` are
identity or metadata constants that no claim touches and are omitted
(`completed_at` is set to the wall clock on completion); `speed` and
`time_remaining` are carried but their sampled values depend on wall-clock
timing and are not recomputed by the model (no claim concerns them). -/
structure DownloadTask where
  id : String
  status : DownloadStatus
  progress : ℚ
  total_size : Nat
  downloaded_size : Nat
  speed : Nat
  time_remaining : Option Nat
  resume_capability : Bool
  error_message : Option String
  resume_attempts : Nat
  deriving DecidableEq, Repr

/-- `AppSettings`, main.rs lines 42-49, restricted to the fields the modeled
core reads (the download folder, connection counts, notification and
auto-start flags only feed unmodeled glue code). -/
structure AppSettings where
  auto_resume_downloads : Bool
  max_resume_attempts : Nat
  resume_delay_seconds : Nat
  min_fail_duration_seconds : Nat
  deriving DecidableEq, Repr

/-- `pat` occurs as a contiguous run inside `l`. -/
def isInfixChars : List Char → List Char → Bool
  | pat, [] => pat.isEmpty
  | pat, x :: xs => pat.isPrefixOf (x :: xs) || isInfixChars pat xs

/-- Rust `str::contains(pat)`: `pat` occurs as a contiguous substring. -/
def containsStr (s pat : String) : Bool :=
  isInfixChars pat.data s.data

/-- Rust `str::contains(c)` for a single character. -/
def charInStr (s : String) (c : Char) : Bool :=
  s.data.contains c

/-- Rust `str::split(c)`: split at every occurrence of the character,
keeping empty pieces. -/
def splitOnChar (c : Char) : List Char → List (List Char)
  | [] => [[]]
  | x :: xs =>
    if x = c then [] :: splitOnChar c xs
    else
      match splitOnChar c xs with
      | [] => [[x]]
      | y :: ys => (x :: y) :: ys

def splitOnSemicolon (s : String) : List String :=
  (splitOnChar ';' s.data).map String.mk

/-- Rust `str::trim`: strip leading and trailing whitespace. -/
def trimStr (s : String) : String :=
  String.mk (((s.data.dropWhile Char.isWhitespace).reverse.dropWhile
    Char.isWhitespace).reverse)

/-- Rust `str::starts_with(pat)`. -/
def startsWithStr (s pat : String) : Bool :=
  pat.data.isPrefixOf s.data

/-- reqwest renders a `StatusCode` as the code followed by its canonical
reason phrase; only the codes the claims exercise need their phrase. -/
def statusDisplay (code : Nat) : String :=
  toString code ++
    (if code = 401 then " Unauthorized"
     else if code = 403 then " Forbidden"
     else if code = 404 then " Not Found"
     else if code = 500 then " Internal Server Error"
     else "")

/-- The error produced at main.rs line 362 for HTTP 401/403. -/
def authMessage (code : Nat) : String :=
  "Authorization failed (" ++ statusDisplay code ++ "). The link may be protected or expired."

/-- The error produced at main.rs line 364 for other non-success statuses. -/
def serverMessage (code : Nat) : String :=
  "Server returned an error: " ++ statusDisplay code

/-- The permanent-failure test of the orchestrator loop, main.rs
lines 320-324, evaluated on the attempt counter read after the loop-entry
increment, the attempt's wall-clock duration and the error's display
string. -/
def should_fail_permanently (settings : AppSettings) (attempts : Nat)
    (duration_ms : Nat) (error_string : String) : Bool :=
  !settings.auto_resume_downloads ||
  decide (attempts ≥ settings.max_resume_attempts) ||
  (decide (attempts > 0) && decide (duration_ms < settings.min_fail_duration_seconds * 1000)) ||
  containsStr error_string "403" || containsStr error_string "404" ||
  containsStr error_string "File size mismatch"

/-- The message stored on entering `Retrying`, main.rs line 340. -/
def retryMessage (delay attempts : Nat) : String :=
  "Network error. Retrying in " ++ toString delay ++ "s... (Attempt " ++ toString attempts ++ ")"

/-- Entry of one orchestrator-loop iteration, main.rs lines 279-284: the `u8`
attempt counter is incremented (mod 256) unless the task is freshly `Queued`,
then the status becomes `Downloading`. -/
def loop_entry (t : DownloadTask) : DownloadTask :=
  let t1 := if t.status ≠ DownloadStatus.queued
            then { t with resume_attempts := (t.resume_attempts + 1) % 256 }
            else t
  { t1 with status := DownloadStatus.downloading }

/-- Transition into `Failed`, main.rs lines 330-331. -/
def fail_transition (t : DownloadTask) (msg : String) : DownloadTask :=
  { t with status := DownloadStatus.failed, error_message := some msg }

/-- Transition into `Retrying`, main.rs lines 339-340. -/
def retry_transition (t : DownloadTask) (delay attempts : Nat) : DownloadTask :=
  { t with status := DownloadStatus.retrying, error_message := some (retryMessage delay attempts) }

/-- Transition into `Paused`, main.rs line 216. -/
def pause_transition (t : DownloadTask) : DownloadTask :=
  { t with status := DownloadStatus.paused, speed := 0 }

/-- Outcome of one `download_file` call as the orchestrator loop observes it:
success, or failure with the error's display string and the attempt's
wall-clock duration in milliseconds. -/
inductive AttemptResult
  | ok
  | err (msg : String) (duration_ms : Nat)
  deriving DecidableEq, Repr

/-- How the orchestrator loop of main.rs lines 275-347 ended. -/
inductive LoopFinal
  | completedOk
  | failed (msg : String)
  | outOfSchedule
  deriving DecidableEq, Repr

/-- The orchestrator loop, main.rs lines 275-347, run against a schedule that
lists the outcome of each successive transfer attempt (`outOfSchedule` means
the schedule ended while the loop would have kept going).  Settings are read
once before the loop, as in the source.  On success the loop just breaks (the
task record itself was already updated inside the transfer, modeled by
`download_file_run` below).  Returns the final task record, how the loop
ended, and the number of transfer attempts executed. -/
def run_download_loop (settings : AppSettings) (t : DownloadTask) :
    List AttemptResult → DownloadTask × LoopFinal × Nat
  | [] => (t, LoopFinal.outOfSchedule, 0)
  | r :: rest =>
    let t1 := loop_entry t
    match r with
    | AttemptResult.ok => (t1, LoopFinal.completedOk, 1)
    | AttemptResult.err msg dur =>
      if should_fail_permanently settings t1.resume_attempts dur msg then
        (fail_transition t1 msg, LoopFinal.failed msg, 1)
      else
        let out := run_download_loop settings
          (retry_transition t1 settings.resume_delay_seconds t1.resume_attempts) rest
        (out.1, out.2.1, out.2.2 + 1)

/-- The response fields `download_file` reads, main.rs lines 360-366. -/
structure HttpResponse where
  status : Nat
  content_length : Option Nat
  accept_ranges_bytes : Bool
  deriving DecidableEq, Repr

/-- One chunk of the response body; `publish` records whether more than
100 ms had elapsed since the last sample when the chunk arrived, which is
what decides whether a task snapshot is published, main.rs line 381. -/
structure Chunk where
  size : Nat
  publish : Bool
  deriving DecidableEq, Repr

/-- The progress percentage computed at main.rs line 384. -/
def progressOf (downloaded total : Nat) : ℚ :=
  if total > 0 then (downloaded : ℚ) / (total : ℚ) * 100 else 0

/-- The total size recorded at main.rs line 366. -/
def computed_total (resume_from : Nat) (resp : HttpResponse) : Nat :=
  if resume_from > 0 ∧ resp.status = 206
  then resp.content_length.getD 0 + resume_from
  else resp.content_length.getD 0

/-- The `Range` header added at main.rs line 359. -/
def request_range_header (resume_from : Nat) : Option String :=
  if resume_from > 0 then some ("bytes=" ++ toString resume_from ++ "-") else none

def chunkSum : List Chunk → Nat
  | [] => 0
  | c :: cs => c.size + chunkSum cs

/-- The task as updated at one sampling point of the streaming loop,
main.rs line 388: the byte counter and the recomputed progress. -/
def sampleTask (t : DownloadTask) (d total : Nat) : DownloadTask :=
  { t with downloaded_size := d, progress := progressOf d total }

/-- The streaming loop of main.rs lines 379-394: the local byte counter
starts at the resume offset and grows with every chunk; a task snapshot with
the recomputed progress is published only at sampling points.  Returns the
published snapshots in order together with the task record as left by the
loop. -/
def streamChunks (total : Nat) : DownloadTask → Nat → List Chunk → List DownloadTask × DownloadTask
  | t, _, [] => ([], t)
  | t, d, c :: rest =>
    if c.publish then
      let out := streamChunks total (sampleTask t (d + c.size) total) (d + c.size) rest
      (sampleTask t (d + c.size) total :: out.1, out.2)
    else
      streamChunks total t (d + c.size) rest

/-- reqwest `StatusCode::is_success`. -/
def statusIsSuccess (code : Nat) : Bool :=
  decide (200 ≤ code ∧ code < 300)

/-- The task as updated and published once the response headers are read,
main.rs lines 366-373: total size and resumability recorded. -/
def headerTask (t : DownloadTask) (resume_from : Nat) (resp : HttpResponse) : DownloadTask :=
  { t with
    total_size := computed_total resume_from resp
    resume_capability := resp.accept_ranges_bytes }

/-- The streaming loop applied to the header-updated task, main.rs
lines 377-394. -/
def bodyStream (t : DownloadTask) (resume_from : Nat) (resp : HttpResponse)
    (chunks : List Chunk) : List DownloadTask × DownloadTask :=
  streamChunks (computed_total resume_from resp) (headerTask t resume_from resp)
    resume_from chunks

/-- The task as published on entering `Verifying`, main.rs line 398. -/
def verifyingTask (t : DownloadTask) (resume_from : Nat) (resp : HttpResponse)
    (chunks : List Chunk) : DownloadTask :=
  { (bodyStream t resume_from resp chunks).2 with status := DownloadStatus.verifying }

/-- The task as published on entering `Completed`, main.rs lines 407-408. -/
def completedTask (t : DownloadTask) (resume_from : Nat) (resp : HttpResponse)
    (chunks : List Chunk) : DownloadTask :=
  { verifyingTask t resume_from resp chunks with
    status := DownloadStatus.completed
    progress := 100
    downloaded_size := computed_total resume_from resp
    speed := 0 }

/-- One transfer attempt, main.rs lines 357-417, for a task assumed present
in the registry throughout (no concurrent cancel): the 401/403 and
non-success status checks, recording of resumability and total size (with a
published snapshot), the streaming loop with its sampled snapshots, the
`Verifying` snapshot, the size verification against the on-disk length
`file_len`, and the `Completed` update with its snapshot.  File I/O itself
and the completion notification are external.  Returns the published
snapshots in order and either the final task record or the error string. -/
def download_file_run (t : DownloadTask) (resume_from : Nat) (resp : HttpResponse)
    (chunks : List Chunk) (file_len : Nat) : List DownloadTask × Except String DownloadTask :=
  if resp.status = 401 ∨ resp.status = 403 then
    ([], Except.error (authMessage resp.status))
  else if statusIsSuccess resp.status = false then
    ([], Except.error (serverMessage resp.status))
  else if computed_total resume_from resp > 0 ∧ file_len ≠ computed_total resume_from resp then
    ((headerTask t resume_from resp :: (bodyStream t resume_from resp chunks).1) ++
      [verifyingTask t resume_from resp chunks], Except.error "File size mismatch")
  else
    ((headerTask t resume_from resp :: (bodyStream t resume_from resp chunks).1) ++
      [verifyingTask t resume_from resp chunks, completedTask t resume_from resp chunks],
     Except.ok (completedTask t resume_from resp chunks))

/-- `HashMap::insert` on the id-to-execution-handle map: the handle value is
a fresh unit identifier, and any handle already stored under the id is
replaced. -/
def insertHandle (handles : List (String × Nat)) (id : String) (u : Nat) : List (String × Nat) :=
  (id, u) :: handles.filter (fun p => p.1 ≠ id)

/-- `start_download_task`, main.rs lines 264-356, as the caller observes it:
it unconditionally spawns the loop unit (the loop itself looks the task up
and breaks when absent), unconditionally inserts the new handle (replacing a
stored one), and returns `Ok`.  The result is the command's return value,
the handle map afterwards, and whether a unit was spawned. -/
def start_download_task (handles : List (String × Nat)) (id : String) (u : Nat) :
    Except String Unit × List (String × Nat) × Bool :=
  (Except.ok (), insertHandle handles id u, true)

/-- `start_download_task` of the older variant,
`src/velodown/src-tauri/src/main.rs` lines 399-444: fails when the task is
absent, otherwise marks it `Downloading`, spawns one transfer and inserts
the handle (replacing a stored one). -/
def start_download_task_v0 (reg : List DownloadTask) (handles : List (String × Nat))
    (id : String) (u : Nat) :
    Except String (List DownloadTask × List (String × Nat)) :=
  match reg.find? (fun t => t.id == id) with
  | none => Except.error "Task not found"
  | some _ =>
    Except.ok
      (reg.map (fun t => if t.id = id then { t with status := DownloadStatus.downloading } else t),
       insertHandle handles id u)

/-- The two event kinds the commands emit. -/
inductive AppEvent
  | task_updated (t : DownloadTask)
  | download_removed (id : String)
  deriving DecidableEq, Repr

/-- `pause_download`, main.rs lines 211-221: aborts and discards the handle
when present, pauses the task when present (publishing it), persists the
registry, and returns `Ok`.  The result carries the registry, the handle
map, the published events, and whether the registry was persisted. -/
def pause_download (reg : List DownloadTask) (handles : List (String × Nat)) (id : String) :
    Except String (List DownloadTask × List (String × Nat) × List AppEvent × Bool) :=
  let events := match reg.find? (fun t => t.id == id) with
    | some t => [AppEvent.task_updated (pause_transition t)]
    | none => []
  Except.ok (reg.map (fun t => if t.id = id then pause_transition t else t),
             handles.filter (fun p => p.1 ≠ id), events, true)

/-- `cancel_download`, main.rs lines 224-231: aborts and discards the handle
when present, removes the task from the registry, persists, emits
`download_removed` for the id unconditionally, and returns `Ok`. -/
def cancel_download (reg : List DownloadTask) (handles : List (String × Nat)) (id : String) :
    Except String (List DownloadTask × List (String × Nat) × List AppEvent × Bool) :=
  Except.ok (reg.filter (fun t => t.id ≠ id), handles.filter (fun p => p.1 ≠ id),
             [AppEvent.download_removed id], true)

/-- Rust `str::trim_start_matches(pat)`: strips every leading copy of `pat`;
fueled by the string length, which bounds the number of strips. -/
def dropPrefixAll (pat : List Char) : Nat → List Char → List Char
  | 0, l => l
  | fuel + 1, l =>
    if pat ≠ [] ∧ pat.isPrefixOf l then dropPrefixAll pat fuel (l.drop pat.length) else l

def trimStartMatchesStr (s pat : String) : String :=
  String.mk (dropPrefixAll pat.data s.data.length s.data)

def dropWhileEqChar (c : Char) : List Char → List Char
  | [] => []
  | x :: xs => if x = c then dropWhileEqChar c xs else x :: xs

/-- Rust `str::trim_matches(c)`: strips every leading and trailing `c`. -/
def trimMatchesChar (s : String) (c : Char) : String :=
  String.mk ((dropWhileEqChar c (dropWhileEqChar c s.data).reverse).reverse)

/-- The Content-Disposition handling of `get_filename_from_response`,
main.rs lines 90-97: the first `;`-separated part whose trimmed form starts
with `filename=`, stripped of that key and of surrounding quotes, accepted
only when non-empty. -/
def parseContentDisposition (cd : String) : Option String :=
  match (splitOnSemicolon cd).find? (fun s => startsWithStr (trimStr s) "filename=") with
  | none => none
  | some part =>
    let f := trimMatchesChar (trimStartMatchesStr (trimStr part) "filename=") '"'
    if f = "" then none else some f

def contentDispositionFilename (cd : Option String) : Option String :=
  cd.bind parseContentDisposition

/-- `get_filename_from_response`, main.rs lines 89-104, on the
Content-Disposition header (when the response carries one), the resolved
URL's path segments, and the current unix timestamp. -/
def get_filename_from_response (cd : Option String) (path_segments : List String)
    (timestamp : Int) : String :=
  match contentDispositionFilename cd with
  | some f => f
  | none =>
    match path_segments.getLast? with
    | some seg => if seg ≠ "" then seg else "download_" ++ toString timestamp ++ ".tmp"
    | none => "download_" ++ toString timestamp ++ ".tmp"

/-- The content-type extension table of `extract_filename_from_url`,
`src/velodown/src-tauri/src/main.rs` lines 165-173 (Rust `contains`, hence
substring tests). -/
def extFromContentType : Option String → String
  | none => "bin"
  | some ct =>
    if containsStr ct "video/mp4" then "mp4"
    else if containsStr ct "video/" then "video"
    else if containsStr ct "audio/" then "mp3"
    else if containsStr ct "image/" then "jpg"
    else if containsStr ct "application/pdf" then "pdf"
    else if containsStr ct "application/zip" then "zip"
    else "bin"

/-- `extract_filename_from_url`, `src/velodown/src-tauri/src/main.rs` lines
153-176; the path segments are `none` when the URL fails to parse. -/
def extract_filename_from_url (path_segments : Option (List String))
    (content_type : Option String) (timestamp : Int) : String :=
  match path_segments.bind List.getLast? with
  | some seg =>
    if seg ≠ "" ∧ charInStr seg '.' then seg
    else "download_" ++ toString timestamp ++ "." ++ extFromContentType content_type
  | none => "download_" ++ toString timestamp ++ "." ++ extFromContentType content_type

/-- The file-name derivation exactly as the specification words it, for
comparison with the two code-derived functions above: (a) the
Content-Disposition filename parameter when present and non-empty; (b) the
last non-empty path segment only if it contains an extension; (c) otherwise
a generated `download_<unix-timestamp>.<ext>` name with `<ext>` mapped from
the content type. -/
def filename_spec_order (cd : Option String) (path_segments : List String)
    (content_type : Option String) (timestamp : Int) : String :=
  match contentDispositionFilename cd with
  | some f => f
  | none =>
    match path_segments.getLast? with
    | some seg =>
      if seg ≠ "" ∧ charInStr seg '.' then seg
      else "download_" ++ toString timestamp ++ "." ++ extFromContentType content_type
    | none => "download_" ++ toString timestamp ++ "." ++ extFromContentType content_type

/-- A transfer-attempt outcome that is a transient (retryable) failure whose
wall-clock duration was at least `minf` seconds: the error string matches
none of the permanent markers the policy greps for. -/
def TransientLong (minf : Nat) : AttemptResult → Prop
  | AttemptResult.ok => False
  | AttemptResult.err msg dur =>
    minf * 1000 ≤ dur ∧ containsStr msg "403" = false ∧
    containsStr msg "404" = false ∧ containsStr msg "File size mismatch" = false

instance (minf : Nat) (r : AttemptResult) : Decidable (TransientLong minf r) :=
  match r with
  | AttemptResult.ok => inferInstanceAs (Decidable False)
  | AttemptResult.err msg dur =>
    inferInstanceAs (Decidable (minf * 1000 ≤ dur ∧ containsStr msg "403" = false ∧
      containsStr msg "404" = false ∧ containsStr msg "File size mismatch" = false))

/-- A fresh task record as `add_download` creates it, main.rs lines 186-193,
restricted to the modeled fields. -/
def baseTask : DownloadTask :=
  { id := "task-1", status := DownloadStatus.queued, progress := 0, total_size := 0,
    downloaded_size := 0, speed := 0, time_remaining := none, resume_capability := false,
    error_message := none, resume_attempts := 0 }

/-- A task half-way through a 1000-byte download, as left by a pause at
offset 500: the concrete input for the claims about resumed attempts. -/
def tC6 : DownloadTask :=
  { baseTask with
    status := DownloadStatus.downloading
    downloaded_size := 500
    total_size := 1000
    progress := 50 }

/-- The sampled snapshot the resumed attempt against a non-206 server
publishes once 600 further bytes arrived: 1100 bytes recorded against a
total of 1000. -/
def sC6bad : DownloadTask :=
  { tC6 with
    resume_capability := true
    downloaded_size := 1100
    progress := progressOf 1100 1000 }

/-- The sampled snapshot of the well-behaved resumed attempt (206 with a
consistent content length) once the remaining 500 bytes arrived. -/
def sC6good : DownloadTask :=
  { tC6 with
    resume_capability := true
    downloaded_size := 1000
    progress := progressOf 1000 1000 }

/-- A fresh task as the orchestrator loop hands it to the first attempt. -/
def tDL : DownloadTask :=
  { baseTask with status := DownloadStatus.downloading }

/-- The completed record of a fresh 1000-byte transfer of `tDL`. -/
def tC7done : DownloadTask :=
  completedTask tDL 0 ⟨200, some 1000, true⟩ [⟨1000, true⟩]

/-! Helper lemmas about the streaming loop, the retry classifier and the
orchestrator loop, shared by the claim theorems below. -/

theorem streamChunks_cons_pub_fst (total : Nat) (t : DownloadTask) (d : Nat) (c : Chunk)
    (rest : List Chunk) (hc : c.publish = true) :
    (streamChunks total t d (c :: rest)).1 =
      sampleTask t (d + c.size) total ::
        (streamChunks total (sampleTask t (d + c.size) total) (d + c.size) rest).1 := by
  simp [streamChunks, hc]

theorem streamChunks_cons_pub_snd (total : Nat) (t : DownloadTask) (d : Nat) (c : Chunk)
    (rest : List Chunk) (hc : c.publish = true) :
    (streamChunks total t d (c :: rest)).2 =
      (streamChunks total (sampleTask t (d + c.size) total) (d + c.size) rest).2 := by
  simp [streamChunks, hc]

theorem streamChunks_cons_nopub (total : Nat) (t : DownloadTask) (d : Nat) (c : Chunk)
    (rest : List Chunk) (hc : c.publish = false) :
    streamChunks total t d (c :: rest) = streamChunks total t (d + c.size) rest := by
  simp [streamChunks, hc]

theorem streamChunks_final_total (total : Nat) (chunks : List Chunk) :
    ∀ (t : DownloadTask) (d : Nat), ((streamChunks total t d chunks).2).total_size = t.total_size := by
  induction chunks with
  | nil => intro t d; rfl
  | cons c rest ih =>
    intro t d
    cases hc : c.publish
    · rw [streamChunks_cons_nopub total t d c rest hc]
      exact ih t (d + c.size)
    · rw [streamChunks_cons_pub_snd total t d c rest hc]
      exact (ih (sampleTask t (d + c.size) total) (d + c.size)).trans rfl

theorem streamChunks_final_error (total : Nat) (chunks : List Chunk) :
    ∀ (t : DownloadTask) (d : Nat),
      ((streamChunks total t d chunks).2).error_message = t.error_message := by
  induction chunks with
  | nil => intro t d; rfl
  | cons c rest ih =>
    intro t d
    cases hc : c.publish
    · rw [streamChunks_cons_nopub total t d c rest hc]
      exact ih t (d + c.size)
    · rw [streamChunks_cons_pub_snd total t d c rest hc]
      exact (ih (sampleTask t (d + c.size) total) (d + c.size)).trans rfl

theorem streamChunks_final_downloaded_le (total : Nat) (chunks : List Chunk) :
    ∀ (t : DownloadTask) (d B : Nat), t.downloaded_size ≤ B → d + chunkSum chunks ≤ B →
      ((streamChunks total t d chunks).2).downloaded_size ≤ B := by
  induction chunks with
  | nil => intro t d B h1 _; exact h1
  | cons c rest ih =>
    intro t d B h1 h2
    simp only [chunkSum] at h2
    cases hc : c.publish
    · rw [streamChunks_cons_nopub total t d c rest hc]
      exact ih t (d + c.size) B h1 (by omega)
    · rw [streamChunks_cons_pub_snd total t d c rest hc]
      exact ih (sampleTask t (d + c.size) total) (d + c.size) B
        (show d + c.size ≤ B by omega) (by omega)

theorem streamChunks_mem_total (total : Nat) (chunks : List Chunk) :
    ∀ (t : DownloadTask) (d : Nat),
      ∀ s ∈ (streamChunks total t d chunks).1, s.total_size = t.total_size := by
  induction chunks with
  | nil => intro t d s hs; exact absurd hs (List.not_mem_nil s)
  | cons c rest ih =>
    intro t d s hs
    cases hc : c.publish
    · rw [streamChunks_cons_nopub total t d c rest hc] at hs
      exact ih t (d + c.size) s hs
    · rw [streamChunks_cons_pub_fst total t d c rest hc, List.mem_cons] at hs
      rcases hs with rfl | hs
      · rfl
      · exact (ih (sampleTask t (d + c.size) total) (d + c.size) s hs).trans rfl

theorem streamChunks_mem_downloaded_le (total : Nat) (chunks : List Chunk) :
    ∀ (t : DownloadTask) (d : Nat),
      ∀ s ∈ (streamChunks total t d chunks).1, s.downloaded_size ≤ d + chunkSum chunks := by
  induction chunks with
  | nil => intro t d s hs; exact absurd hs (List.not_mem_nil s)
  | cons c rest ih =>
    intro t d s hs
    simp only [chunkSum]
    cases hc : c.publish
    · rw [streamChunks_cons_nopub total t d c rest hc] at hs
      have := ih t (d + c.size) s hs
      omega
    · rw [streamChunks_cons_pub_fst total t d c rest hc, List.mem_cons] at hs
      rcases hs with rfl | hs
      · show d + c.size ≤ d + (c.size + chunkSum rest)
        omega
      · have := ih (sampleTask t (d + c.size) total) (d + c.size) s hs
        omega

theorem streamChunks_mem_progress (total : Nat) (chunks : List Chunk) :
    ∀ (t : DownloadTask) (d : Nat), t.total_size = total →
      ∀ s ∈ (streamChunks total t d chunks).1,
        s.progress = progressOf s.downloaded_size s.total_size := by
  induction chunks with
  | nil => intro t d _ s hs; exact absurd hs (List.not_mem_nil s)
  | cons c rest ih =>
    intro t d ht s hs
    cases hc : c.publish
    · rw [streamChunks_cons_nopub total t d c rest hc] at hs
      exact ih t (d + c.size) ht s hs
    · rw [streamChunks_cons_pub_fst total t d c rest hc, List.mem_cons] at hs
      rcases hs with rfl | hs
      · show progressOf (d + c.size) total =
          progressOf (sampleTask t (d + c.size) total).downloaded_size
            (sampleTask t (d + c.size) total).total_size
        simp [sampleTask, ht]
      · exact ih (sampleTask t (d + c.size) total) (d + c.size) (by simp [sampleTask, ht]) s hs

theorem should_fail_on_transient (k delay minf a dur : Nat) (msg : String)
    (hdur : minf * 1000 ≤ dur)
    (h403 : containsStr msg "403" = false)
    (h404 : containsStr msg "404" = false)
    (hfsm : containsStr msg "File size mismatch" = false) :
    should_fail_permanently ⟨true, k, delay, minf⟩ a dur msg = decide (k ≤ a) := by
  have hnd : ¬ (dur < minf * 1000) := Nat.not_lt.mpr hdur
  simp [should_fail_permanently, h403, h404, hfsm, hnd]

theorem loop_entry_attempts_of_ne (t : DownloadTask)
    (hq : t.status ≠ DownloadStatus.queued) :
    (loop_entry t).resume_attempts = (t.resume_attempts + 1) % 256 := by
  simp [loop_entry, hq]

theorem loop_entry_attempts_of_queued (t : DownloadTask)
    (hq : t.status = DownloadStatus.queued) :
    (loop_entry t).resume_attempts = t.resume_attempts := by
  simp [loop_entry, hq]

theorem loop_entry_status (t : DownloadTask) :
    (loop_entry t).status = DownloadStatus.downloading := by
  by_cases hq : t.status = DownloadStatus.queued <;> simp [loop_entry, hq]

theorem loop_entry_error (t : DownloadTask) :
    (loop_entry t).error_message = t.error_message := by
  by_cases hq : t.status = DownloadStatus.queued <;> simp [loop_entry, hq]

theorem run_loop_cons_err_fail (s : AppSettings) (t : DownloadTask) (msg : String)
    (dur : Nat) (rest : List AttemptResult)
    (h : should_fail_permanently s (loop_entry t).resume_attempts dur msg = true) :
    run_download_loop s t (AttemptResult.err msg dur :: rest) =
      (fail_transition (loop_entry t) msg, LoopFinal.failed msg, 1) := by
  simp [run_download_loop, h]

theorem run_loop_cons_err_retry (s : AppSettings) (t : DownloadTask) (msg : String)
    (dur : Nat) (rest : List AttemptResult)
    (h : should_fail_permanently s (loop_entry t).resume_attempts dur msg = false) :
    run_download_loop s t (AttemptResult.err msg dur :: rest) =
      ((run_download_loop s (retry_transition (loop_entry t) s.resume_delay_seconds
          (loop_entry t).resume_attempts) rest).1,
       (run_download_loop s (retry_transition (loop_entry t) s.resume_delay_seconds
          (loop_entry t).resume_attempts) rest).2.1,
       (run_download_loop s (retry_transition (loop_entry t) s.resume_delay_seconds
          (loop_entry t).resume_attempts) rest).2.2 + 1) := by
  simp [run_download_loop, h]

/-- Running the orchestrator loop from any non-`Queued` state with `a`
attempts already consumed, against transient long-lasting failures only:
it retries until the counter reaches the cap `k` and fails there, having
executed `k - a` further attempts. -/
theorem run_loop_transient_aux (k delay minf : Nat) (hk255 : k ≤ 255)
    (sched : List AttemptResult) :
    ∀ (t : DownloadTask) (a : Nat),
      t.resume_attempts = a → t.status ≠ DownloadStatus.queued → a < k →
      k - a ≤ sched.length → (∀ r ∈ sched, TransientLong minf r) →
      (run_download_loop ⟨true, k, delay, minf⟩ t sched).1.status = DownloadStatus.failed ∧
      (run_download_loop ⟨true, k, delay, minf⟩ t sched).1.resume_attempts = k ∧
      (run_download_loop ⟨true, k, delay, minf⟩ t sched).2.2 = k - a := by
  induction sched with
  | nil =>
    intro t a _ _ hak hlen _
    simp at hlen
    omega
  | cons r rest ih =>
    intro t a hra hq hak hlen htr
    have hr := htr r (List.mem_cons_self r rest)
    cases r with
    | ok => exact absurd hr (by simp [TransientLong])
    | err msg dur =>
      obtain ⟨hdur, h403, h404, hfsm⟩ := hr
      have h1a : (loop_entry t).resume_attempts = a + 1 := by
        rw [loop_entry_attempts_of_ne t hq, hra]
        omega
      have hsf : should_fail_permanently ⟨true, k, delay, minf⟩
          (loop_entry t).resume_attempts dur msg = decide (k ≤ a + 1) := by
        rw [h1a]
        exact should_fail_on_transient k delay minf (a + 1) dur msg hdur h403 h404 hfsm
      by_cases hke : k ≤ a + 1
      · have hsf' : should_fail_permanently ⟨true, k, delay, minf⟩
            (loop_entry t).resume_attempts dur msg = true := by
          rw [hsf]
          simp [hke]
        rw [run_loop_cons_err_fail _ t msg dur rest hsf']
        refine ⟨rfl, ?_, show (1 : Nat) = k - a by omega⟩
        show (loop_entry t).resume_attempts = k
        omega
      · have hsf' : should_fail_permanently ⟨true, k, delay, minf⟩
            (loop_entry t).resume_attempts dur msg = false := by
          rw [hsf]
          simp [hke]
        rw [run_loop_cons_err_retry _ t msg dur rest hsf']
        have hlen' : k - (a + 1) ≤ rest.length := by
          simp only [List.length_cons] at hlen
          omega
        have hrec := ih (retry_transition (loop_entry t)
            (⟨true, k, delay, minf⟩ : AppSettings).resume_delay_seconds
            (loop_entry t).resume_attempts)
          (a + 1) (by simp [retry_transition, h1a]) (by simp [retry_transition])
          (by omega) hlen' (fun x hx => htr x (List.mem_cons_of_mem _ hx))
        refine ⟨hrec.1, hrec.2.1, ?_⟩
        show (run_download_loop ⟨true, k, delay, minf⟩ _ rest).2.2 + 1 = k - a
        rw [hrec.2.2]
        omega

theorem download_file_run_ok_eq (t : DownloadTask) (resume : Nat) (resp : HttpResponse)
    (chunks : List Chunk) (fl : Nat) (t1 : DownloadTask)
    (h : (download_file_run t resume resp chunks fl).2 = Except.ok t1) :
    t1 = completedTask t resume resp chunks := by
  by_cases h1 : resp.status = 401 ∨ resp.status = 403
  · simp [download_file_run, h1] at h
  · by_cases h2 : statusIsSuccess resp.status = false
    · simp [download_file_run, h1, h2] at h
    · by_cases h3 : computed_total resume resp > 0 ∧ fl ≠ computed_total resume resp
      · simp [download_file_run, h1, h2, h3] at h
      · simp [download_file_run, h1, h2, h3] at h
        exact h.symm

theorem download_file_run_ok_snaps (t : DownloadTask) (resume : Nat) (resp : HttpResponse)
    (chunks : List Chunk) (fl : Nat) (t1 : DownloadTask)
    (h : (download_file_run t resume resp chunks fl).2 = Except.ok t1) :
    (download_file_run t resume resp chunks fl).1 =
      (headerTask t resume resp :: (bodyStream t resume resp chunks).1) ++
        [verifyingTask t resume resp chunks, completedTask t resume resp chunks] := by
  by_cases h1 : resp.status = 401 ∨ resp.status = 403
  · simp [download_file_run, h1] at h
  · by_cases h2 : statusIsSuccess resp.status = false
    · simp [download_file_run, h1, h2] at h
    · by_cases h3 : computed_total resume resp > 0 ∧ fl ≠ computed_total resume resp
      · simp [download_file_run, h1, h2, h3] at h
      · simp [download_file_run, h1, h2, h3]

theorem completedTask_total (t : DownloadTask) (resume : Nat) (resp : HttpResponse)
    (chunks : List Chunk) :
    (completedTask t resume resp chunks).total_size = computed_total resume resp := by
  simp [completedTask, verifyingTask, bodyStream, streamChunks_final_total, headerTask]

theorem completedTask_error (t : DownloadTask) (resume : Nat) (resp : HttpResponse)
    (chunks : List Chunk) :
    (completedTask t resume resp chunks).error_message = t.error_message := by
  simp [completedTask, verifyingTask, bodyStream, streamChunks_final_error, headerTask]

/-! The claim theorems. -/

/-- C1: with auto-resume enabled and `maxResumeAttempts = k > 0`, a task
whose every transfer attempt fails with a transient (retryable) error of
duration at least `minFailDurationSeconds` runs the first attempt plus
exactly `k` retry cycles — the counter having been incremented on every
non-`Queued` entry to `Downloading` — and then transitions to `Failed`,
never executing more attempts even when more failures would be available. -/
theorem C1_retry_budget_exact (k m delay minf : Nat) (t : DownloadTask)
    (sched : List AttemptResult)
    (hk : 0 < k) (hk255 : k ≤ 255)
    (hstatus : t.status = DownloadStatus.queued) (hattempts : t.resume_attempts = 0)
    (hlen : sched.length = k + 1 + m)
    (htr : ∀ r ∈ sched, TransientLong minf r) :
    (run_download_loop ⟨true, k, delay, minf⟩ t sched).1.status = DownloadStatus.failed ∧
    (run_download_loop ⟨true, k, delay, minf⟩ t sched).1.resume_attempts = k ∧
    (run_download_loop ⟨true, k, delay, minf⟩ t sched).2.2 = k + 1 := by
  cases sched with
  | nil =>
    simp at hlen
    exact absurd hlen (by omega)
  | cons r rest =>
    have hr := htr r (List.mem_cons_self r rest)
    cases r with
    | ok => exact absurd hr (by simp [TransientLong])
    | err msg dur =>
      obtain ⟨hdur, h403, h404, hfsm⟩ := hr
      have h1a : (loop_entry t).resume_attempts = 0 := by
        rw [loop_entry_attempts_of_queued t hstatus, hattempts]
      have hsf' : should_fail_permanently ⟨true, k, delay, minf⟩
          (loop_entry t).resume_attempts dur msg = false := by
        rw [h1a, should_fail_on_transient k delay minf 0 dur msg hdur h403 h404 hfsm]
        simp
        omega
      rw [run_loop_cons_err_retry _ t msg dur rest hsf']
      have hlen' : k - 0 ≤ rest.length := by
        simp only [List.length_cons] at hlen
        omega
      have hrec := run_loop_transient_aux k delay minf hk255 rest
        (retry_transition (loop_entry t)
          (⟨true, k, delay, minf⟩ : AppSettings).resume_delay_seconds
          (loop_entry t).resume_attempts)
        0 (by simp [retry_transition, h1a]) (by simp [retry_transition]) hk hlen'
        (fun x hx => htr x (List.mem_cons_of_mem _ hx))
      refine ⟨hrec.1, hrec.2.1, ?_⟩
      show (run_download_loop ⟨true, k, delay, minf⟩ _ rest).2.2 + 1 = k + 1
      rw [hrec.2.2]
      omega

/-- C1 witness: `k = 1`, two transient 20-second failures scheduled; the
loop fails after the first attempt plus one retry, with the counter at 1. -/
theorem C1_retry_budget_exact_witness :
    (run_download_loop ⟨true, 1, 10, 20⟩ baseTask
      [AttemptResult.err "Connection reset" 20000,
       AttemptResult.err "Connection reset" 20000]).1.status = DownloadStatus.failed ∧
    (run_download_loop ⟨true, 1, 10, 20⟩ baseTask
      [AttemptResult.err "Connection reset" 20000,
       AttemptResult.err "Connection reset" 20000]).1.resume_attempts = 1 ∧
    (run_download_loop ⟨true, 1, 10, 20⟩ baseTask
      [AttemptResult.err "Connection reset" 20000,
       AttemptResult.err "Connection reset" 20000]).2.2 = 2 :=
  C1_retry_budget_exact 1 0 10 20 baseTask
    [AttemptResult.err "Connection reset" 20000, AttemptResult.err "Connection reset" 20000]
    (by decide) (by decide) rfl rfl rfl (by decide)

/-- C2 counterexample: an attempt answered with HTTP 401 does produce the
authorization error, but the retry policy does not classify it as a
permanent failure (the string test greps only for 403/404), so with budget
left and a long first attempt the task is retried — contradicting the
claim that 401 responses are never retried. -/
theorem C2_counterexample :
    (download_file_run baseTask 0 ⟨401, none, false⟩ [] 0).2 =
      Except.error (authMessage 401) ∧
    should_fail_permanently ⟨true, 5, 10, 20⟩ 0 20000 (authMessage 401) = false := by
  exact ⟨rfl, by decide⟩

/-- C2 amended: attempts answered with HTTP 401 or 403 both return the
authorization error; the policy classifies the 403 one as a permanent
failure regardless of settings, budget and duration (its message contains
"403"), while the 401 one is classified as transient and retried whenever
auto-resume is on, budget remains, and the fast-failure heuristic does not
trigger. -/
theorem C2_auth_classification (s : AppSettings) (a d : Nat) (t : DownloadTask)
    (resume : Nat) (cl : Option Nat) (ar : Bool) (chunks : List Chunk) (fl : Nat) :
    (download_file_run t resume ⟨401, cl, ar⟩ chunks fl).2 =
      Except.error (authMessage 401) ∧
    (download_file_run t resume ⟨403, cl, ar⟩ chunks fl).2 =
      Except.error (authMessage 403) ∧
    should_fail_permanently s a d (authMessage 403) = true ∧
    (s.auto_resume_downloads = true → a < s.max_resume_attempts →
      (a = 0 ∨ s.min_fail_duration_seconds * 1000 ≤ d) →
      should_fail_permanently s a d (authMessage 401) = false) := by
  refine ⟨rfl, rfl, ?_, ?_⟩
  · have h403 : containsStr (authMessage 403) "403" = true := by decide
    simp [should_fail_permanently, h403]
  · intro hauto hlt hd
    have h403 : containsStr (authMessage 401) "403" = false := by decide
    have h404 : containsStr (authMessage 401) "404" = false := by decide
    have hfsm : containsStr (authMessage 401) "File size mismatch" = false := by decide
    have hge : ¬ (a ≥ s.max_resume_attempts) := Nat.not_le.mpr hlt
    rcases hd with rfl | hd
    · simp [should_fail_permanently, hauto, h403, h404, hfsm, hge]
    · have hnd : ¬ (d < s.min_fail_duration_seconds * 1000) := Nat.not_lt.mpr hd
      simp [should_fail_permanently, hauto, h403, h404, hfsm, hge, hnd]

/-- C2 witness: concrete settings with budget left and a 20-second first
attempt: a 403 is classified permanent, a 401 is not. -/
theorem C2_auth_classification_witness :
    should_fail_permanently ⟨true, 5, 10, 20⟩ 0 20000 (authMessage 403) = true ∧
    should_fail_permanently ⟨true, 5, 10, 20⟩ 0 20000 (authMessage 401) = false :=
  ⟨(C2_auth_classification ⟨true, 5, 10, 20⟩ 0 20000 baseTask 0 none false [] 0).2.2.1,
   (C2_auth_classification ⟨true, 5, 10, 20⟩ 0 20000 baseTask 0 none false [] 0).2.2.2
     rfl (by decide) (Or.inl rfl)⟩

/-- C3 counterexample: in the reference variant, `start` on an id with no
task in the registry returns success (the command never reports
`TaskNotFound`), and `start` while a handle for the id is already stored
still spawns a unit and replaces the handle rather than no-opping. -/
theorem C3_counterexample :
    (start_download_task [] "task-1" 0).1 = Except.ok () ∧
    (start_download_task [] "task-1" 0).1 ≠ Except.error "Task not found" ∧
    start_download_task [("task-1", 0)] "task-1" 1 =
      (Except.ok (), [("task-1", 1)], true) := by
  refine ⟨rfl, fun h => Except.noConfusion h, rfl⟩

/-- C3 amended: the reference `start` always returns success, spawns a unit
and inserts the new handle (replacing any stored one, also when the task is
already running); only the older variant fails with "Task not found" when
the id is absent from the registry. -/
theorem C3_start_semantics (reg : List DownloadTask) (handles : List (String × Nat))
    (id : String) (u : Nat) :
    (start_download_task handles id u).1 = Except.ok () ∧
    (start_download_task handles id u).2.1 = insertHandle handles id u ∧
    (start_download_task handles id u).2.2 = true ∧
    ((∀ t ∈ reg, t.id ≠ id) →
      start_download_task_v0 reg handles id u = Except.error "Task not found") := by
  refine ⟨rfl, rfl, rfl, ?_⟩
  intro habs
  have hfind : reg.find? (fun t => t.id == id) = none := by
    rw [List.find?_eq_none]
    intro t ht
    simp [habs t ht]
  simp [start_download_task_v0, hfind]

/-- C3 witness: with the task absent, the reference variant answers `Ok`
while the older variant reports the absence. -/
theorem C3_start_semantics_witness :
    (start_download_task [("task-1", 0)] "task-1" 1).1 = Except.ok () ∧
    start_download_task_v0 [] [] "task-1" 0 = Except.error "Task not found" :=
  ⟨(C3_start_semantics [] [("task-1", 0)] "task-1" 1).1,
   (C3_start_semantics [] [] "task-1" 0).2.2.2 (by decide)⟩

/-- C5 counterexample: explicitly resuming a freshly paused task (counter
at 0) re-enters the loop with status `Paused ≠ Queued`, so the entry
increments the counter to 1 — the `Paused → Downloading` transition does
not leave `resume_attempts` unchanged. -/
theorem C5_counterexample :
    (pause_transition baseTask).status = DownloadStatus.paused ∧
    (pause_transition baseTask).resume_attempts = 0 ∧
    (loop_entry (pause_transition baseTask)).status = DownloadStatus.downloading ∧
    (loop_entry (pause_transition baseTask)).resume_attempts = 1 := by
  decide

/-- C5 amended: the loop entry increments the attempt counter on every
entry to `Downloading` from any non-`Queued` status — including explicit
resume from `Paused` — and leaves it unchanged only when the task is
freshly `Queued` (the very first attempt does not count). -/
theorem C5_attempt_counter (t : DownloadTask) :
    (t.status = DownloadStatus.queued →
      (loop_entry t).resume_attempts = t.resume_attempts) ∧
    (t.status ≠ DownloadStatus.queued →
      (loop_entry t).resume_attempts = (t.resume_attempts + 1) % 256) ∧
    (loop_entry t).status = DownloadStatus.downloading := by
  refine ⟨?_, ?_, loop_entry_status t⟩
  · intro h
    exact loop_entry_attempts_of_queued t h
  · intro h
    exact loop_entry_attempts_of_ne t h

/-- C5 witness: the queued base task keeps its counter; the paused one is
incremented. -/
theorem C5_attempt_counter_witness :
    (loop_entry baseTask).resume_attempts = baseTask.resume_attempts ∧
    (loop_entry (pause_transition baseTask)).resume_attempts =
      ((pause_transition baseTask).resume_attempts + 1) % 256 :=
  ⟨(C5_attempt_counter baseTask).1 rfl,
   (C5_attempt_counter (pause_transition baseTask)).2.1 (by decide)⟩

/-- C4 counterexample: resuming a failed task re-enters `Downloading`
without clearing the stored error message, so a snapshot exists whose
status is `Downloading` while `error_message` is `Some` — refuting the
claimed iff between a present message and status `Failed`/`Retrying`. -/
theorem C4_counterexample :
    (loop_entry (fail_transition baseTask "boom")).status =
      DownloadStatus.downloading ∧
    (loop_entry (fail_transition baseTask "boom")).error_message = some "boom" ∧
    ¬ ((loop_entry (fail_transition baseTask "boom")).error_message.isSome = true ↔
       ((loop_entry (fail_transition baseTask "boom")).status = DownloadStatus.failed ∨
        (loop_entry (fail_transition baseTask "boom")).status = DownloadStatus.retrying)) := by
  decide

/-- C4 amended: entering `Failed` or `Retrying` always sets the error
message, but no other transition clears it — pausing, re-entering
`Downloading`, and completing all carry the previous message through
unchanged, so a stale message can persist outside `Failed`/`Retrying`. -/
theorem C4_error_message_persistence (t : DownloadTask) (msg : String) (delay a : Nat)
    (resume : Nat) (resp : HttpResponse) (chunks : List Chunk) (fl : Nat)
    (t1 : DownloadTask) :
    (fail_transition t msg).status = DownloadStatus.failed ∧
    (fail_transition t msg).error_message = some msg ∧
    (retry_transition t delay a).status = DownloadStatus.retrying ∧
    (retry_transition t delay a).error_message = some (retryMessage delay a) ∧
    (pause_transition t).error_message = t.error_message ∧
    (loop_entry t).error_message = t.error_message ∧
    ((download_file_run t resume resp chunks fl).2 = Except.ok t1 →
      t1.error_message = t.error_message) := by
  refine ⟨rfl, rfl, rfl, rfl, rfl, loop_entry_error t, ?_⟩
  intro h
  rw [download_file_run_ok_eq t resume resp chunks fl t1 h]
  exact completedTask_error t resume resp chunks

/-- C4 witness: failing sets the message; the completed record of a clean
transfer still carries whatever message its task had. -/
theorem C4_error_message_persistence_witness :
    (fail_transition baseTask "boom").error_message = some "boom" ∧
    tC7done.error_message = tDL.error_message :=
  ⟨(C4_error_message_persistence baseTask "boom" 0 0 0 ⟨200, some 1000, true⟩ [] 0
      baseTask).2.1,
   (C4_error_message_persistence tDL "x" 0 0 0 ⟨200, some 1000, true⟩ [⟨1000, true⟩] 1000
      tC7done).2.2.2.2.2.2 rfl⟩

/-- C6 counterexample: resuming from offset 500 against a server that
answers 200 (not 206) with content length 1000 records `total_size = 1000`
but streams the full body on top of the offset, publishing a snapshot with
`downloaded_size = 1100 > total_size = 1000`. -/
theorem C6_counterexample :
    (download_file_run tC6 500 ⟨200, some 1000, true⟩ [⟨600, true⟩] 1500).1.get? 1 =
      some sC6bad ∧
    sC6bad.total_size = 1000 ∧
    sC6bad.downloaded_size = 1100 ∧
    ((download_file_run tC6 500 ⟨200, some 1000, true⟩ [⟨600, true⟩] 1500).1.all
      (fun s => s.total_size == 0 || decide (s.downloaded_size ≤ s.total_size))) = false := by
  refine ⟨rfl, rfl, rfl, by decide⟩

/-- C6 amended: `downloaded_size ≤ total_size` does hold at every published
snapshot of an attempt whenever the attempt is fresh (`resumeFromBytes = 0`)
or the server answers 206, and the body does not exceed the announced
content length — the violation is confined to resumed attempts that a
non-partial-content response restarts from scratch. -/
theorem C6_size_invariant (t : DownloadTask) (resume : Nat) (resp : HttpResponse)
    (chunks : List Chunk) (fl : Nat)
    (hdl : t.downloaded_size = resume)
    (hres : resume = 0 ∨ resp.status = 206)
    (hcl : chunkSum chunks ≤ resp.content_length.getD 0) :
    ∀ s ∈ (download_file_run t resume resp chunks fl).1,
      s.total_size > 0 → s.downloaded_size ≤ s.total_size := by
  have hkey : resume + chunkSum chunks ≤ computed_total resume resp := by
    unfold computed_total
    rcases hres with h | h
    · subst h
      simp [hcl]
    · by_cases hr : resume > 0
      · simp [hr, h]
        omega
      · have h0 : resume = 0 := by omega
        subst h0
        simp [hcl]
  have htot : (headerTask t resume resp).total_size = computed_total resume resp := rfl
  have hhdl : (headerTask t resume resp).downloaded_size = resume := hdl
  have hheader : (headerTask t resume resp).downloaded_size ≤
      (headerTask t resume resp).total_size := by
    rw [hhdl, htot]
    omega
  have hstream : ∀ x ∈ (bodyStream t resume resp chunks).1,
      x.downloaded_size ≤ x.total_size := by
    intro x hx
    have hx1 := streamChunks_mem_downloaded_le (computed_total resume resp) chunks
      (headerTask t resume resp) resume x hx
    have hx2 := streamChunks_mem_total (computed_total resume resp) chunks
      (headerTask t resume resp) resume x hx
    rw [hx2, htot]
    omega
  have hver : (verifyingTask t resume resp chunks).downloaded_size ≤
      (verifyingTask t resume resp chunks).total_size := by
    have hvt : (verifyingTask t resume resp chunks).total_size =
        computed_total resume resp := by
      show ((bodyStream t resume resp chunks).2).total_size = _
      rw [bodyStream, streamChunks_final_total, htot]
    have hvd : (verifyingTask t resume resp chunks).downloaded_size ≤
        computed_total resume resp := by
      show ((bodyStream t resume resp chunks).2).downloaded_size ≤ _
      exact streamChunks_final_downloaded_le (computed_total resume resp) chunks
        (headerTask t resume resp) resume (computed_total resume resp)
        (by rw [hhdl]; omega) hkey
    omega
  have hcompl : (completedTask t resume resp chunks).downloaded_size ≤
      (completedTask t resume resp chunks).total_size := by
    have h1 : (completedTask t resume resp chunks).downloaded_size =
        computed_total resume resp := rfl
    rw [h1, completedTask_total]
  intro s hs h0
  by_cases h1 : resp.status = 401 ∨ resp.status = 403
  · simp [download_file_run, h1] at hs
  · by_cases h2 : statusIsSuccess resp.status = false
    · simp [download_file_run, h1, h2] at hs
    · by_cases h3 : computed_total resume resp > 0 ∧ fl ≠ computed_total resume resp
      · simp [download_file_run, h1, h2, h3] at hs
        rcases hs with rfl | hs | rfl
        · exact hheader
        · exact hstream s hs
        · exact hver
      · simp [download_file_run, h1, h2, h3] at hs
        rcases hs with rfl | hs | rfl | rfl
        · exact hheader
        · exact hstream s hs
        · exact hver
        · exact hcompl

/-- C6 witness: the well-behaved resume (206, consistent lengths) keeps the
published snapshot within the total. -/
theorem C6_size_invariant_witness :
    sC6good.downloaded_size ≤ sC6good.total_size :=
  C6_size_invariant tC6 500 ⟨206, some 500, true⟩ [⟨500, true⟩] 1000 rfl (Or.inr rfl)
    (by decide) sC6good
    (List.get?_mem (show (download_file_run tC6 500 ⟨206, some 500, true⟩
      [⟨500, true⟩] 1000).1.get? 1 = some sC6good from rfl))
    (by decide)

/-- C7 counterexample: completing a transfer whose total size stayed
unknown (no content length) publishes the `Completed` snapshot with
`total_size = 0` but `progress = 100`, not `0` as the claim requires for
`total_size == 0`. -/
theorem C7_counterexample :
    (download_file_run baseTask 0 ⟨200, none, false⟩ [] 0).2 =
      Except.ok (completedTask baseTask 0 ⟨200, none, false⟩ []) ∧
    (completedTask baseTask 0 ⟨200, none, false⟩ []).total_size = 0 ∧
    (completedTask baseTask 0 ⟨200, none, false⟩ []).progress = 100 ∧
    (completedTask baseTask 0 ⟨200, none, false⟩ []).progress ≠ 0 ∧
    completedTask baseTask 0 ⟨200, none, false⟩ [] ∈
      (download_file_run baseTask 0 ⟨200, none, false⟩ [] 0).1 := by
  refine ⟨rfl, rfl, rfl, by decide, by decide⟩

/-- C7 amended: every snapshot published by the streaming sampler carries
`progress = (downloaded/total)·100` when `total > 0` and `0` when
`total = 0`; the header and `Verifying` snapshots republish the previous
progress value unchanged; and the `Completed` snapshot always reports
`progress = 100` with `downloaded_size = total_size` — which agrees with
the formula exactly when `total_size > 0`, and overrides the claimed `0`
when `total_size = 0`. -/
theorem C7_progress_formula (t : DownloadTask) (resume : Nat) (resp : HttpResponse)
    (chunks : List Chunk) (fl : Nat) (t1 : DownloadTask) :
    (∀ s ∈ (bodyStream t resume resp chunks).1,
      s.progress = progressOf s.downloaded_size s.total_size) ∧
    (headerTask t resume resp).progress = t.progress ∧
    (verifyingTask t resume resp chunks).progress =
      ((bodyStream t resume resp chunks).2).progress ∧
    ((download_file_run t resume resp chunks fl).2 = Except.ok t1 →
      t1.status = DownloadStatus.completed ∧ t1.progress = 100 ∧
      t1.downloaded_size = t1.total_size ∧
      t1 ∈ (download_file_run t resume resp chunks fl).1) := by
  refine ⟨?_, rfl, rfl, ?_⟩
  · exact streamChunks_mem_progress (computed_total resume resp) chunks
      (headerTask t resume resp) resume rfl
  · intro h
    have hsnaps := download_file_run_ok_snaps t resume resp chunks fl t1 h
    have he := download_file_run_ok_eq t resume resp chunks fl t1 h
    subst he
    refine ⟨rfl, rfl, ?_, ?_⟩
    · have h1 : (completedTask t resume resp chunks).downloaded_size =
          computed_total resume resp := rfl
      rw [h1, completedTask_total]
    · rw [hsnaps]
      simp

/-- C7 witness: the completed record of a concrete 1000-byte transfer
reports progress 100 with downloaded equal to total. -/
theorem C7_progress_formula_witness :
    tC7done.progress = 100 ∧ tC7done.downloaded_size = tC7done.total_size := by
  have h := (C7_progress_formula tDL 0 ⟨200, some 1000, true⟩ [⟨1000, true⟩] 1000
    tC7done).2.2.2 rfl
  exact ⟨h.2.1, h.2.2.1⟩

/-- C8: the recorded total equals the content length plus the resume
offset exactly when resuming against a 206 answer, and the content length
(or 0 when the header is absent) otherwise; a positive resume offset puts
a `bytes=<offset>-` range header on the request and offset 0 puts none. -/
theorem C8_total_size_and_range (resume : Nat) (resp : HttpResponse) :
    (resume > 0 → request_range_header resume =
      some ("bytes=" ++ toString resume ++ "-")) ∧
    (resume = 0 → request_range_header resume = none) ∧
    (∀ L, resp.content_length = some L →
      computed_total resume resp =
        if resume > 0 ∧ resp.status = 206 then L + resume else L) ∧
    (resp.content_length = none → ¬(resume > 0 ∧ resp.status = 206) →
      computed_total resume resp = 0) ∧
    (resp.content_length = none → resume > 0 → resp.status = 206 →
      computed_total resume resp = resume) := by
  refine ⟨?_, ?_, ?_, ?_, ?_⟩
  · intro h
    simp [request_range_header, h]
  · intro h
    subst h
    rfl
  · intro L hL
    by_cases hc : resume > 0 ∧ resp.status = 206 <;> simp [computed_total, hL, hc]
  · intro hn hc
    simp [computed_total, hn, hc]
  · intro hn hr h206
    simp [computed_total, hn, hr, h206]

/-- C8 witness: resuming from 500 against a 206 answer with content length
500 yields total 1000 and the range header `bytes=500-`. -/
theorem C8_total_size_and_range_witness :
    request_range_header 500 = some ("bytes=" ++ toString 500 ++ "-") ∧
    computed_total 500 ⟨206, some 500, true⟩ =
      (if 500 > 0 ∧ (206 : Nat) = 206 then 500 + 500 else 500) :=
  ⟨(C8_total_size_and_range 500 ⟨206, some 500, true⟩).1 (by decide),
   (C8_total_size_and_range 500 ⟨206, some 500, true⟩).2.2.1 500 rfl⟩

/-- C9 counterexample: for a URL whose last path segment `data` has no
extension, the reference resolver returns `data` while the claimed
derivation generates `download_5.pdf`; and when the segment is empty the
reference fallback is always `download_<ts>.tmp`, never the content-type
mapped extension the claim prescribes. -/
theorem C9_counterexample :
    get_filename_from_response none ["data"] 5 = "data" ∧
    filename_spec_order none ["data"] (some "application/pdf") 5 = "download_5.pdf" ∧
    get_filename_from_response none [""] 7 = "download_7.tmp" ∧
    filename_spec_order none [""] (some "application/zip") 7 = "download_7.zip" ∧
    ("data" : String) ≠ "download_5.pdf" ∧
    ("download_7.tmp" : String) ≠ "download_7.zip" := by
  refine ⟨rfl, rfl, rfl, rfl, by decide, by decide⟩

/-- C9 amended: the reference resolver prefers the Content-Disposition
filename, then the last non-empty path segment regardless of extension,
then `download_<ts>.tmp`; the older variant ignores Content-Disposition,
requires the segment to contain a dot, and otherwise generates
`download_<ts>.<ext>` with the content-type substring mapping the claim
describes. -/
theorem C9_filename_rules (cd : Option String) (segs : List String)
    (ct : Option String) (ts : Int) :
    (∀ f, contentDispositionFilename cd = some f →
      get_filename_from_response cd segs ts = f) ∧
    (contentDispositionFilename cd = none → ∀ seg, segs.getLast? = some seg →
      seg ≠ "" → get_filename_from_response cd segs ts = seg) ∧
    (contentDispositionFilename cd = none →
      segs.getLast? = none ∨ segs.getLast? = some "" →
      get_filename_from_response cd segs ts = "download_" ++ toString ts ++ ".tmp") ∧
    (∀ seg, segs.getLast? = some seg → seg ≠ "" → charInStr seg '.' = true →
      extract_filename_from_url (some segs) ct ts = seg) ∧
    (∀ seg, segs.getLast? = some seg → ¬(seg ≠ "" ∧ charInStr seg '.' = true) →
      extract_filename_from_url (some segs) ct ts =
        "download_" ++ toString ts ++ "." ++ extFromContentType ct) ∧
    (extFromContentType (some "video/mp4") = "mp4" ∧
     extFromContentType (some "video/webm") = "video" ∧
     extFromContentType (some "audio/mpeg") = "mp3" ∧
     extFromContentType (some "image/png") = "jpg" ∧
     extFromContentType (some "application/pdf") = "pdf" ∧
     extFromContentType (some "application/zip") = "zip" ∧
     extFromContentType (some "text/html") = "bin" ∧
     extFromContentType none = "bin") := by
  refine ⟨?_, ?_, ?_, ?_, ?_, by decide⟩
  · intro f hf
    simp [get_filename_from_response, hf]
  · intro hn seg hseg hne
    simp [get_filename_from_response, hn, hseg, hne]
  · intro hn hc
    rcases hc with hc | hc <;> simp [get_filename_from_response, hn, hc]
  · intro seg hseg hne hdot
    simp [extract_filename_from_url, hseg, hne, hdot]
  · intro seg hseg hcond
    simp [extract_filename_from_url, hseg, hcond]

/-- C9 witness: a quoted Content-Disposition filename wins in the
reference resolver; a dotless segment makes the older variant generate the
content-type mapped name. -/
theorem C9_filename_rules_witness :
    get_filename_from_response (some "attachment; filename=\"report.pdf\"") ["x"] 3 =
      "report.pdf" ∧
    extract_filename_from_url (some ["archive"]) (some "application/zip") 3 =
      "download_" ++ toString (3 : Int) ++ "." ++ extFromContentType (some "application/zip") :=
  ⟨(C9_filename_rules (some "attachment; filename=\"report.pdf\"") ["x"] none 3).1
     "report.pdf" (by decide),
   (C9_filename_rules none ["archive"] (some "application/zip") 3).2.2.2.2.1
     "archive" rfl (by decide)⟩

/-- C10: pausing or cancelling an id with no task in the registry succeeds
rather than erroring: pause leaves the registry unchanged while still
persisting it, and cancel still emits `download_removed` for the unknown
id. -/
theorem C10_unknown_id_pause_cancel (reg : List DownloadTask)
    (handles : List (String × Nat)) (tid : String)
    (habs : ∀ t ∈ reg, t.id ≠ tid) :
    pause_download reg handles tid =
      Except.ok (reg, handles.filter (fun p => p.1 ≠ tid), [], true) ∧
    cancel_download reg handles tid =
      Except.ok (reg, handles.filter (fun p => p.1 ≠ tid),
        [AppEvent.download_removed tid], true) := by
  have hfind : reg.find? (fun t => t.id == tid) = none := by
    rw [List.find?_eq_none]
    intro t ht
    simp [habs t ht]
  have hmap : ∀ (l : List DownloadTask), (∀ t ∈ l, t.id ≠ tid) →
      l.map (fun t => if t.id = tid then pause_transition t else t) = l := by
    intro l
    induction l with
    | nil => intro _; rfl
    | cons a as ih =>
      intro h
      simp only [List.map_cons]
      rw [if_neg (h a (List.mem_cons_self a as)),
        ih (fun t ht => h t (List.mem_cons_of_mem a ht))]
  have hfilter : reg.filter (fun t => t.id ≠ tid) = reg := by
    rw [List.filter_eq_self]
    intro a ha
    simp [habs a ha]
  constructor
  · simp only [pause_download, hfind]
    rw [hmap reg habs]
  · simp only [cancel_download]
    rw [hfilter]

/-- C10 witness: the unknown id `nope` against a one-task registry. -/
theorem C10_unknown_id_pause_cancel_witness :
    pause_download [baseTask] [] "nope" = Except.ok ([baseTask], [], [], true) ∧
    cancel_download [baseTask] [] "nope" =
      Except.ok ([baseTask], [], [AppEvent.download_removed "nope"], true) :=
  ⟨(C10_unknown_id_pause_cancel [baseTask] [] "nope" (by decide)).1,
   (C10_unknown_id_pause_cancel [baseTask] [] "nope" (by decide)).2⟩

end Velodown
